import Mathlib

/-!
Shallow embedding of the browser session manager
(python-server/app/services/selenium_manager.py, class SeleniumManager).

Modelling conventions:
* The registry field running_profiles (a Python dict from profile id to a
  handle dict) is an association list `List (String × Handle)`; dict lookup
  is `List.lookup`, dict deletion is `List.filter`.
* External effects (the SeleniumBase launch, CDP commands, HTTP calls,
  psutil reads, page navigations) are driven by explicit environment
  records whose boolean fields say which operation raises; Python
  exceptions become `Except` values.
* The global random stream is an explicit list of entropy values: a call
  to randint consumes the head of the list.
* Finite floats (memory MB, audio samples, coordinates) are `ℚ`; results
  of the float() conversion are `PyFloat` (finite, signed infinity, nan).
* A falsy optional field (Python None or the empty string) is `none`.
-/

deriving instance DecidableEq for Except

namespace Celebium

/-- ProfileConfig: the profile database model fields read by
SeleniumManager (id, name, fingerprint/network attributes). Optional
string fields use `none` for Python falsy values. -/
structure Profile where
  id : String
  name : String
  screen_resolution : Option String
  proxy_string : Option String
  webrtc_mode : String
  language : Option String
  user_agent : Option String
  os : String
  cpu_cores : Option Nat
  memory_gb : Option Nat
  webgl_vendor : Option String
  webgl_renderer : Option String
  canvas_mode : String
  audio_mode : String
  stealth_tier : String
  adblock_enabled : Bool
  timezone : Option String
  geolocation : Option String
  deriving Repr, DecidableEq

/-- Error taxonomy of the manager: the already-running and not-running
exceptions, failures of the launch steps, the ValueError from unpacking a
malformed resolution, and navigation failures. -/
inductive SMError where
  | alreadyRunning (name : String)
  | notRunning (profile_id : String)
  | launchFailure
  | valueError
  | navigationError
  deriving Repr, DecidableEq

/-- Splitting a character list at every occurrence of a separator
character: the Python str.split on a one-character separator. -/
def splitChar (sep : Char) : List Char → List (List Char)
  | [] => [[]]
  | c :: cs =>
    if c = sep then [] :: splitChar sep cs
    else
      match splitChar sep cs with
      | [] => [[c]]
      | w :: ws => (c :: w) :: ws

/-- Python str.split on a one-character separator, over strings. All
separators the manager splits on (x, colon, comma, dot) are one
character. -/
def pySplit (s : String) (sep : Char) : List String :=
  (splitChar sep s.data).map String.mk

/-- Whether the first list is a leading segment of the second. -/
def leadingChars : List Char → List Char → Bool
  | [], _ => true
  | _ :: _, [] => false
  | a :: as, b :: bs => a = b && leadingChars as bs

/-- Substring search over character lists. -/
def containsChars (needle : List Char) : List Char → Bool
  | [] => leadingChars needle []
  | c :: cs => leadingChars needle (c :: cs) || containsChars needle cs

/-- Embeds the Python `in` test on strings. -/
def strContains (haystack needle : String) : Bool :=
  containsChars needle.data haystack.data

/-- Numeric value of a digit list, most significant digit first. -/
def digitsVal (cs : List Char) : Nat :=
  cs.foldl (fun acc c => acc * 10 + (c.toNat - 48)) 0

/-- Embeds the Python int conversion as used on the debug-port digits:
every character must be a decimal digit. -/
def pyToNat? (s : String) : Option Nat :=
  match s.data with
  | [] => none
  | cs => if cs.all Char.isDigit then some (digitsVal cs) else none

/-- ASCII lower-casing of one character, as Python str.lower acts on the
OS labels involved. -/
def lowerChar (c : Char) : Char :=
  if 65 ≤ c.toNat ∧ c.toNat ≤ 90 then Char.ofNat (c.toNat + 32) else c

/-- Python str.lower over the character list of a string. -/
def strLower (s : String) : String :=
  String.mk (s.data.map lowerChar)

/-- Embeds _build_chrome_options: builds the Chrome launch flags.
Unpacking `width, height = profile.screen_resolution.split("x")` raises
ValueError unless the split yields exactly two parts; a proxy string adds
a proxy-server flag; WebRTC mode "disabled" adds a disable-webrtc flag;
caller flags are appended last. -/
def _build_chrome_options (profile : Profile) (extra_flags : List String) :
    Except SMError (List String) :=
  let tail : List String :=
    (match profile.proxy_string with
     | some p => ["--proxy-server=" ++ p]
     | none => [])
    ++ (if profile.webrtc_mode = "disabled" then ["--disable-webrtc"] else [])
    ++ extra_flags
  match profile.screen_resolution with
  | none => .ok tail
  | some res =>
    match pySplit res 'x' with
    | [width, height] => .ok (("--window-size=" ++ width ++ "," ++ height) :: tail)
    | _ => .error .valueError

/-- Driver-visible debug-port information: the service port when the
service exposes one, and the debuggerAddress capability string. -/
structure DriverEnv where
  servicePort : Option Nat
  debuggerAddress : Option String
  deriving Repr, DecidableEq

/-- Embeds _get_debug_port: service port first, then the port parsed from
the debuggerAddress capability, then the hard-coded default 9222 (an int
parse failure is swallowed by the bare except). -/
def _get_debug_port (d : DriverEnv) : Nat :=
  match d.servicePort with
  | some p => p
  | none =>
    match d.debuggerAddress with
    | some addr =>
      if strContains addr ":" then
        match pyToNat? ((pySplit addr ':').getD 1 "") with
        | some n => n
        | none => 9222
      else 9222
    | none => 9222

/-- Outcome of the HTTP metadata query against the debug port:
`none` models any raised exception (timeout, connection refused, JSON
decode error); `some v` models a decoded JSON object, where `v` is
`some url` when the key webSocketDebuggerUrl is present and `none` when
the dict lookup falls back to its default, the empty string. -/
abbrev HttpResult := Option (Option String)

/-- Embeds _get_websocket_url: on a successful metadata query returns the
webSocketDebuggerUrl value (default empty string); on any exception
synthesizes the conventional devtools address from the resolved port. -/
def _get_websocket_url (http : HttpResult) (debug_port : Nat) : String :=
  match http with
  | some data =>
    match data with
    | some url => url
    | none => ""
  | none => "ws://127.0.0.1:" ++ toString debug_port ++ "/devtools/browser"

/-- Embeds _get_platform_from_os: fixed lookup from the profile OS label
to a navigator.platform token, defaulting to the Windows token. -/
def _get_platform_from_os (os_name : String) : String :=
  let os_lower := strLower os_name
  if strContains os_lower "windows" then "Win32"
  else if strContains os_lower "mac" then "MacIntel"
  else if strContains os_lower "linux" then "Linux x86_64"
  else if strContains os_lower "android" then "Linux armv8l"
  else if strContains os_lower "iphone" || strContains os_lower "ipad" then "iPhone"
  else "Win32"

/-- Model of randint driven by one explicit entropy value `r`: the result
always lands between `lo` and `hi`, both ends inclusive as in Python. -/
def randint (lo hi r : Nat) : Nat :=
  lo + r % (hi - lo + 1)

theorem randint_lower (lo hi r : Nat) : lo ≤ randint lo hi r :=
  Nat.le_add_right lo _

theorem randint_upper (lo hi r : Nat) (h : lo ≤ hi) : randint lo hi r ≤ hi := by
  have hpos : 0 < hi - lo + 1 := Nat.succ_pos _
  have hlt : r % (hi - lo + 1) < hi - lo + 1 := Nat.mod_lt _ hpos
  have hle : r % (hi - lo + 1) ≤ hi - lo := Nat.lt_succ_iff.mp hlt
  calc lo + r % (hi - lo + 1) ≤ lo + (hi - lo) := Nat.add_le_add_left hle lo
    _ = hi := Nat.add_sub_cancel' h

/-- A Python float value as the geolocation override receives it: a
finite value (modelled as ℚ), a signed infinity, or nan. -/
inductive PyFloat where
  | finite (q : ℚ)
  | infinite (neg : Bool)
  | nan
  deriving Repr, DecidableEq

/-- Negation of a Python float, for a leading minus sign. The sign of
nan is unobservable and dropped. -/
def pyNeg : PyFloat → PyFloat
  | .finite q => .finite (-q)
  | .infinite b => .infinite !b
  | .nan => .nan

/-- The ASCII whitespace characters float() strips around a literal. -/
def isPySpace (c : Char) : Bool :=
  c = ' ' || c = '\t' || c = '\n' || c = '\r' || c.toNat = 11 || c.toNat = 12

/-- Strips leading and trailing whitespace, as float() does. -/
def stripSpaces (cs : List Char) : List Char :=
  ((cs.dropWhile isPySpace).reverse.dropWhile isPySpace).reverse

/-- The tail of a digitpart: underscores may appear only between
digits (single, never leading, trailing or doubled). -/
def validDigitTail : List Char → Bool
  | [] => true
  | '_' :: c :: rest => c.isDigit && validDigitTail rest
  | ['_'] => false
  | c :: rest => c.isDigit && validDigitTail rest

/-- A Python digitpart: at least one digit, underscores only between
digits. -/
def validDigitPart (cs : List Char) : Bool :=
  match cs with
  | [] => false
  | c :: rest => c.isDigit && validDigitTail rest

/-- A digitpart that may also be absent, as on either side of the
decimal dot. -/
def validDigitPartOpt (cs : List Char) : Bool :=
  cs.isEmpty || validDigitPart cs

/-- The digits of a digitpart with its underscores removed. -/
def stripUnderscores (cs : List Char) : List Char :=
  cs.filter (fun c => !(c = '_'))

/-- The mantissa of a float literal: a digitpart with at most one dot
and at least one digit overall. -/
def parseMantissa (cs : List Char) : Option ℚ :=
  match splitChar '.' cs with
  | [ip] =>
    if validDigitPart ip then some ((digitsVal (stripUnderscores ip) : ℚ)) else none
  | [ip, fp] =>
    if (validDigitPartOpt ip && validDigitPartOpt fp) && !(ip.isEmpty && fp.isEmpty) then
      some ((digitsVal (stripUnderscores ip) : ℚ)
        + (digitsVal (stripUnderscores fp) : ℚ)
            / (10 : ℚ) ^ (stripUnderscores fp).length)
    else none
  | _ => none

/-- The exponent of a float literal: an optional sign and a digitpart. -/
def parseExponent (cs : List Char) : Option ℤ :=
  match cs with
  | '-' :: rest =>
    if validDigitPart rest then some (-(digitsVal (stripUnderscores rest) : ℤ))
    else none
  | '+' :: rest =>
    if validDigitPart rest then some ((digitsVal (stripUnderscores rest) : ℤ))
    else none
  | rest =>
    if validDigitPart rest then some ((digitsVal (stripUnderscores rest) : ℤ))
    else none

/-- A float literal after sign removal and lower-casing: inf, infinity,
nan, or a mantissa with an optional exponent marked by the letter e. -/
def parseUnsignedFloat (cs : List Char) : Option PyFloat :=
  if cs = ['i', 'n', 'f'] ∨ cs = ['i', 'n', 'f', 'i', 'n', 'i', 't', 'y'] then
    some (.infinite false)
  else if cs = ['n', 'a', 'n'] then some .nan
  else
    match splitChar 'e' cs with
    | [mant] => (parseMantissa mant).map .finite
    | [mant, ex] => do
      let m ← parseMantissa mant
      let e ← parseExponent ex
      pure (.finite (m * (10 : ℚ) ^ e))
    | _ => none

/-- Model of the Python float conversion: strips ASCII whitespace,
lower-cases, then accepts an optional sign followed by inf/infinity,
nan, or a decimal literal with an optional fraction, underscores between
digits, and an optional signed exponent. Returns `none` where float()
raises ValueError. Non-ASCII digits and non-ASCII whitespace are not
modelled. -/
def parseFloat? (s : String) : Option PyFloat :=
  match (stripSpaces s.data).map lowerChar with
  | '-' :: rest => (parseUnsignedFloat rest).map pyNeg
  | '+' :: rest => parseUnsignedFloat rest
  | rest => parseUnsignedFloat rest

/-- Embeds the unpacking `lat, lon = map(float, geolocation.split(","))`:
succeeds exactly when the split has two parts and both parse as floats;
any other shape raises inside the try block and is turned into `none`. -/
def parseGeolocation (g : String) : Option (PyFloat × PyFloat) :=
  match pySplit g ',' with
  | [a, b] => do
    let lat ← parseFloat? a
    let lon ← parseFloat? b
    pure (lat, lon)
  | _ => none

/-- Semantic content of the injected initialization script built by
_apply_fingerprint_overrides: the navigator overrides, the per-session
NOISE_SEED constant, and which optional fragments (WebGL, canvas noise,
audio noise, elite protections) were appended. -/
structure InjectionScript where
  platform : String
  hardwareConcurrency : Nat
  deviceMemory : Nat
  noise_seed : Nat
  webgl : Option (String × String)
  canvas_noise : Bool
  audio_noise : Bool
  elite : Bool
  deriving Repr, DecidableEq

/-- A CDP command issued through execute_cdp_cmd, with its payload. -/
inductive CdpCommand where
  | setBlockedURLs (urls : List String)
  | setUserAgentOverride (userAgent : String)
  | addScriptToEvaluateOnNewDocument (script : InjectionScript)
  | setTimezoneOverride (timezoneId : String)
  | grantPermissions (permissions : List String)
  | setGeolocationOverride (latitude longitude : PyFloat) (accuracy : Nat)
  deriving Repr, DecidableEq

/-- Evaluates the patched getImageData loop of the injected script on a
byte array starting at index `i`: every fourth byte (the red channel)
gets NOISE_SEED mod 2 added, reduced mod 256; other bytes untouched. -/
def canvasNoiseLoop (seed : Nat) : Nat → List Nat → List Nat
  | _, [] => []
  | i, b :: rest =>
    (if i % 4 = 0 then (b + seed % 2) % 256 else b) :: canvasNoiseLoop seed (i + 1) rest

/-- Pixel readback through the script installed for the session: the
canvas noise patch runs only when the canvas fragment was injected. -/
def canvasGetImageData (s : InjectionScript) (data : List Nat) : List Nat :=
  if s.canvas_noise then canvasNoiseLoop s.noise_seed 0 data else data

/-- Evaluates the patched getChannelData loop: every hundredth sample is
offset by NOISE_SEED / 1000000. -/
def audioNoiseLoop (offset : ℚ) : Nat → List ℚ → List ℚ
  | _, [] => []
  | i, b :: rest =>
    (if i % 100 = 0 then b + offset else b) :: audioNoiseLoop offset (i + 1) rest

/-- Audio readback through the script installed for the session. -/
def audioGetChannelData (s : InjectionScript) (buffer : List ℚ) : List ℚ :=
  if s.audio_noise then audioNoiseLoop ((s.noise_seed : ℚ) / 1000000) 0 buffer else buffer

/-- Which operations inside _apply_fingerprint_overrides raise. The
ad-block and geolocation commands sit in inner try/except blocks whose
failures are swallowed; the others abort the rest of the sequence and are
caught only by the outer handler, which logs and returns normally. -/
structure FpEnv where
  activateRaises : Bool
  adblockCmdRaises : Bool
  uaCmdRaises : Bool
  addScriptRaises : Bool
  tzCmdRaises : Bool
  geoGrantRaises : Bool
  geoSetRaises : Bool
  reconnectRaises : Bool
  deriving Repr, DecidableEq

/-- Observable outcome of _apply_fingerprint_overrides: the CDP commands
issued, the script installed to run on every new document (if the install
was reached), and the remaining entropy stream. The function itself never
raises — its whole body is wrapped in a logging try/except. -/
structure FpState where
  cmds : List CdpCommand
  script : Option InjectionScript
  rng : List Nat
  deriving Repr, DecidableEq

/-- The blocked URL patterns installed when ad-block is enabled. -/
def adblockUrls : List String :=
  ["*.googlesyndication.com*", "*.googletagmanager.com*",
   "*.google-analytics.com*", "*.amazon-adsystem.com*",
   "*.doubleclick.net*", "*.adsafeprotected.com*",
   "*.facebook.net/en_US/fbevents.js*"]

/-- Steps 2 and 3 of the injection sequence: the optional ad-block
command (inside its own try/except, so its raise is swallowed) and the
user-agent override. An error result carries the commands issued before
the raise that aborts the rest of the sequence. -/
def uaStep (env : FpEnv) (profile : Profile) :
    Except (List CdpCommand) (List CdpCommand) :=
  let cmds0 : List CdpCommand :=
    if profile.adblock_enabled && !env.adblockCmdRaises then
      [.setBlockedURLs adblockUrls]
    else []
  match profile.user_agent with
  | some ua =>
    if env.uaCmdRaises then .error cmds0
    else .ok (cmds0 ++ [.setUserAgentOverride ua])
  | none => .ok cmds0

/-- The injection script composed from the profile and the drawn seed:
navigator spoofing, the NOISE_SEED constant, and the conditional WebGL,
canvas-noise, audio-noise and elite fragments. -/
def buildScript (profile : Profile) (noise_seed : Nat) : InjectionScript :=
  { platform := _get_platform_from_os profile.os
    hardwareConcurrency := profile.cpu_cores.getD 8
    deviceMemory := profile.memory_gb.getD 8
    noise_seed := noise_seed
    webgl :=
      match profile.webgl_vendor, profile.webgl_renderer with
      | some v, some r => some (v, r)
      | _, _ => none
    canvas_noise := profile.canvas_mode = "noise"
    audio_noise := profile.audio_mode = "noise"
    elite := profile.stealth_tier = "elite" }

/-- Step 12 of the injection sequence: the geolocation override, wrapped
in a try/except whose raise is swallowed. Commands are issued only when
the string contains a comma and unpacks into two floats; the grant can
land without the override when only the second command raises. -/
def geoStep (env : FpEnv) (profile : Profile) (cmds : List CdpCommand) :
    List CdpCommand :=
  match profile.geolocation with
  | some g =>
    if strContains g "," then
      match parseGeolocation g with
      | some (lat, lon) =>
        if !env.geoGrantRaises then
          if !env.geoSetRaises then
            cmds ++ [.grantPermissions ["geolocation"],
                     .setGeolocationOverride lat lon 100]
          else cmds ++ [.grantPermissions ["geolocation"]]
        else cmds
      | none => cmds
    else cmds
  | none => cmds

/-- Steps 11 and 12: timezone then geolocation. A timezone-command raise
aborts the remaining sequence, so it also skips the geolocation step. -/
def tzGeoStep (env : FpEnv) (profile : Profile) (cmds : List CdpCommand) :
    List CdpCommand :=
  match profile.timezone with
  | some tz =>
    if env.tzCmdRaises then cmds
    else geoStep env profile (cmds ++ [.setTimezoneOverride tz])
  | none => geoStep env profile cmds

/-- Embeds _apply_fingerprint_overrides. One noise seed is drawn (from the
head of the entropy stream) per call once control reaches the draw; the
script embedding that seed is installed at most once via
Page.addScriptToEvaluateOnNewDocument, so every future document of the
session evaluates the same NOISE_SEED constant. A raise of the final
reconnect is caught by the outer handler and changes nothing observable,
so the environment flag for it is unused. -/
def _apply_fingerprint_overrides (env : FpEnv) (rng : List Nat) (profile : Profile) :
    FpState :=
  if env.activateRaises then ⟨[], none, rng⟩
  else
    match uaStep env profile with
    | .error cmds => ⟨cmds, none, rng⟩
    | .ok cmds1 =>
      let script := buildScript profile (randint 1 1000 rng.headI)
      if env.addScriptRaises then ⟨cmds1, none, rng.tail⟩
      else
        ⟨tzGeoStep env profile (cmds1 ++ [.addScriptToEvaluateOnNewDocument script]),
          some script, rng.tail⟩

/-- A registered session handle: the fields stored into running_profiles
plus the browser-side state established by fingerprint injection (which
in Python lives in the launched browser reached through sb and driver). -/
structure Handle where
  pid : Option Nat
  debug_port : Nat
  websocket_url : String
  started_at : Nat
  browser : FpState
  deriving Repr, DecidableEq

/-- The running_profiles dict: profile id to handle. -/
abbrev Registry := List (String × Handle)

/-- The dict returned by a successful start_profile call. -/
structure StartResult where
  debug_port : Nat
  websocket_link : String
  pid : Option Nat
  deriving Repr, DecidableEq

/-- Environment of one start_profile call: which steps raise, plus the
driver, HTTP and clock observations. pageFailIndex gives the position of
the first start-page operation that raises, if any. -/
structure StartEnv where
  makedirsRaises : Bool
  launchRaises : Bool
  blankNavRaises : Bool
  driver : DriverEnv
  http : HttpResult
  pid : Option Nat
  fp : FpEnv
  pageFailIndex : Option Nat
  now : Nat
  deriving Repr, DecidableEq

/-- Outcome of start_profile: the registry and entropy stream after the
call, the returned dict or raised error, and the fate of the OS process:
whether one was created during the call, and whether a created process
was torn down again before the call returned. -/
structure StartOutcome where
  registry : Registry
  rng : List Nat
  result : Except SMError StartResult
  processLaunched : Bool
  processKilled : Bool
  deriving Repr, DecidableEq

/-- Whether one of the start-page operations raises: the environment
marks a failing navigation at an index within the page list. -/
def pageNavFails (env : StartEnv) (start_pages : List String) : Bool :=
  match env.pageFailIndex with
  | some i => decide (i < start_pages.length)
  | none => false

/-- Embeds start_profile. Order as in the source: already-running check,
makedirs, _build_chrome_options, SB launch, blank-page navigation, debug
port and websocket resolution, pid, fingerprint overrides, start pages,
registry insertion. The except handler only logs and re-raises: it
neither removes a registry entry (none was made) nor tears the launched
process down. -/
def start_profile (reg : Registry) (rng : List Nat) (env : StartEnv) (profile : Profile)
    (chrome_flags : List String) (start_pages : List String) : StartOutcome :=
  if (List.lookup profile.id reg).isSome then
    ⟨reg, rng, .error (.alreadyRunning profile.name), false, false⟩
  else if env.makedirsRaises then
    ⟨reg, rng, .error .launchFailure, false, false⟩
  else
    match _build_chrome_options profile chrome_flags with
    | .error e => ⟨reg, rng, .error e, false, false⟩
    | .ok _opts =>
      if env.launchRaises then
        ⟨reg, rng, .error .launchFailure, false, false⟩
      else if env.blankNavRaises then
        ⟨reg, rng, .error .navigationError, true, false⟩
      else
        let debug_port := _get_debug_port env.driver
        let websocket_url := _get_websocket_url env.http debug_port
        let fp := _apply_fingerprint_overrides env.fp rng profile
        if pageNavFails env start_pages then
          ⟨reg, fp.rng, .error .navigationError, true, false⟩
        else
          ⟨(profile.id, ⟨env.pid, debug_port, websocket_url, env.now, fp⟩) :: reg,
            fp.rng, .ok ⟨debug_port, websocket_url, env.pid⟩, true, false⟩

/-- Which operations inside stop_profile raise: the graceful context
exit, and the psutil terminate/wait sequence of the forced path. -/
structure StopEnv where
  gracefulRaises : Bool
  killRaises : Bool
  deriving Repr, DecidableEq

/-- Outcome of stop_profile: registry after the call, result, and which
shutdown path acted on the process. -/
structure StopOutcome where
  registry : Registry
  result : Except SMError Unit
  gracefulClosed : Bool
  forceKilled : Bool
  deriving Repr, DecidableEq

/-- Dict deletion of a profile id, as performed in the finally block. -/
def removeProfile (reg : Registry) (profile_id : String) : Registry :=
  reg.filter (fun e => e.1 ≠ profile_id)

/-- Embeds stop_profile: raises not-running when the id is absent;
otherwise tries the graceful context exit, falls back to a psutil
terminate (only when a pid was recorded; its errors are swallowed), and
unconditionally deletes the registry entry in the finally block. -/
def stop_profile (reg : Registry) (env : StopEnv) (profile_id : String) : StopOutcome :=
  match List.lookup profile_id reg with
  | none => ⟨reg, .error (.notRunning profile_id), false, false⟩
  | some h =>
    ⟨removeProfile reg profile_id, .ok (),
      !env.gracefulRaises,
      env.gracefulRaises && h.pid.isSome && !env.killRaises⟩

/-- Embeds close_all: snapshots the ids, then stops each, swallowing any
error and keeping whatever registry each stop left behind. -/
def close_all (reg : Registry) (envs : String → StopEnv) : Registry :=
  (reg.map Prod.fst).foldl (fun r i => (stop_profile r (envs i) i).registry) reg

/-- Embeds is_running: pure membership query. -/
def is_running (reg : Registry) (profile_id : String) : Bool :=
  (List.lookup profile_id reg).isSome

/-- The stats snapshot returned by get_stats. -/
structure Stats where
  running_count : Nat
  total_memory_mb : ℚ
  profiles : List String
  deriving Repr, DecidableEq

/-- Rounding to two decimal places, embedding round(total_memory, 2). -/
def round2 (q : ℚ) : ℚ := (round (q * 100) : ℤ) / 100

/-- Embeds get_stats with an explicit memory oracle: `mem pid = some rss`
models a successful psutil read of rss bytes, `none` a raised exception
(swallowed per entry by try/except). Entries without a recorded pid skip
the read. -/
def get_stats (reg : Registry) (mem : Nat → Option Nat) : Stats :=
  let total : ℚ := reg.foldl (fun acc e =>
    match e.2.pid with
    | some pid =>
      match mem pid with
      | some rss => acc + (rss : ℚ) / (1024 * 1024)
      | none => acc
    | none => acc) 0
  ⟨reg.length, round2 total, reg.map Prod.fst⟩

/-- The scripts installed through addScriptToEvaluateOnNewDocument among
a list of issued commands. -/
def scriptCmds (cmds : List CdpCommand) : List InjectionScript :=
  cmds.filterMap (fun c =>
    match c with
    | .addScriptToEvaluateOnNewDocument s => some s
    | _ => none)

/-- The scripts installed during a fingerprint-injection run. -/
def installedScripts (st : FpState) : List InjectionScript :=
  scriptCmds st.cmds

/-- The geolocation-related commands among an injection run's commands. -/
def isGeoCommand : CdpCommand → Bool
  | .grantPermissions _ => true
  | .setGeolocationOverride _ _ _ => true
  | _ => false

/-- The geolocation commands the geolocation step appends to the issued
command list. -/
def geoAdds (env : FpEnv) (p : Profile) : List CdpCommand :=
  match p.geolocation with
  | some g =>
    if strContains g "," then
      match parseGeolocation g with
      | some (lat, lon) =>
        if !env.geoGrantRaises then
          if !env.geoSetRaises then
            [.grantPermissions ["geolocation"],
             .setGeolocationOverride lat lon 100]
          else [.grantPermissions ["geolocation"]]
        else []
      | none => []
    else []
  | none => []

/-- A concrete profile used for instance checks: full fingerprint
configuration, resolution 1920x1080, a socks5 proxy, WebRTC disabled,
noise canvas/audio modes, elite tier, and a well-formed geolocation. -/
def sampleProfile : Profile :=
  ⟨"p1", "Profile One", some "1920x1080", some "socks5://u:p@host:1080",
   "disabled", some "en-US,en", some "UA-String", "Windows 11", some 4,
   some 16, some "VendorX", some "RendererY", "noise", "noise", "elite",
   true, some "America/New_York", some "40.7128,-74.0060"⟩

/-- sampleProfile with a geolocation string that is not a float pair. -/
def badGeoProfile : Profile := { sampleProfile with geolocation := some "not-a-pair" }

/-- sampleProfile with a space after the comma, as float() accepts. -/
def spacedGeoProfile : Profile :=
  { sampleProfile with geolocation := some "40.7128, -74.0060" }

/-- sampleProfile with an exponent-notation geolocation pair. -/
def expGeoProfile : Profile := { sampleProfile with geolocation := some "4e1,2" }

/-- sampleProfile with a malformed screen resolution (one part). -/
def badResProfile : Profile := { sampleProfile with screen_resolution := some "1920" }

/-- An injection environment in which no CDP operation raises. -/
def okFpEnv : FpEnv := ⟨false, false, false, false, false, false, false, false⟩

/-- A driver whose service exposes port 9515. -/
def okDriverEnv : DriverEnv := ⟨some 9515, none⟩

/-- A start environment in which every step succeeds and the metadata
query returns a websocket URL. -/
def okStartEnv : StartEnv :=
  ⟨false, false, false, okDriverEnv, some (some "ws://real"), some 777, okFpEnv, none, 0⟩

/-- okStartEnv but the blank-page navigation raises after launch. -/
def blankNavFailEnv : StartEnv := { okStartEnv with blankNavRaises := true }

/-- okStartEnv but the metadata query succeeds with a JSON object that
lacks the webSocketDebuggerUrl key. -/
def keylessHttpEnv : StartEnv := { okStartEnv with http := some none }

/-- okStartEnv but the metadata query raises. -/
def fallbackHttpEnv : StartEnv := { okStartEnv with http := none }

/-- A concrete registered handle. -/
def sampleHandle : Handle := ⟨some 4242, 9515, "ws://real", 0, ⟨[], none, []⟩⟩

/-- The script built for sampleProfile at a given seed. -/
def sampleScript (seed : Nat) : InjectionScript :=
  ⟨"Win32", 4, 16, seed, some ("VendorX", "RendererY"), true, true, true⟩

section RegistryLemmas

theorem removeProfile_of_lookup_none (reg : Registry) (i : String)
    (hl : List.lookup i reg = none) : removeProfile reg i = reg := by
  induction reg with
  | nil => rfl
  | cons e rest ih =>
    obtain ⟨k, v⟩ := e
    rw [List.lookup] at hl
    match hbe : i == k with
    | true => rw [hbe] at hl; exact absurd hl (by simp)
    | false =>
      rw [hbe] at hl
      have hne : k ≠ i := by
        intro hcontra
        rw [hcontra] at hbe
        simp at hbe
      have ih' := ih hl
      simp only [removeProfile, List.filter_cons] at ih' ⊢
      rw [if_pos (by simpa using hne), ih']

theorem lookup_removeProfile (reg : Registry) (i : String) :
    List.lookup i (removeProfile reg i) = none := by
  induction reg with
  | nil => rfl
  | cons e rest ih =>
    obtain ⟨k, v⟩ := e
    simp only [removeProfile, List.filter_cons] at ih ⊢
    by_cases hne : k = i
    · rw [if_neg (by simpa using hne)]
      exact ih
    · rw [if_pos (by simpa using hne), List.lookup]
      have hbe : (i == k) = false :=
        beq_eq_false_iff_ne.mpr (fun hcontra => hne hcontra.symm)
      rw [hbe]
      exact ih

theorem stop_profile_registry (reg : Registry) (env : StopEnv) (i : String) :
    (stop_profile reg env i).registry = removeProfile reg i := by
  unfold stop_profile
  cases hl : List.lookup i reg with
  | none => simp [removeProfile_of_lookup_none reg i hl]
  | some h => rfl

theorem stop_profile_present (reg : Registry) (env : StopEnv) (i : String)
    (h : Handle) (hl : List.lookup i reg = some h) :
    (stop_profile reg env i).result = .ok () := by
  unfold stop_profile
  rw [hl]

theorem stopFold_empty (envs : String → StopEnv) :
    ∀ (ids : List String) (reg : Registry), (∀ e ∈ reg, e.1 ∈ ids) →
      ids.foldl (fun r i => (stop_profile r (envs i) i).registry) reg = [] := by
  intro ids
  induction ids with
  | nil =>
    intro reg h
    match reg with
    | [] => rfl
    | e :: t => exact absurd (h e (by simp)) (by simp)
  | cons i rest ih =>
    intro reg h
    simp only [List.foldl_cons]
    rw [stop_profile_registry]
    apply ih
    intro e he
    have h1 : e ∈ reg := List.mem_of_mem_filter he
    have h3 : ¬ (e.1 = i) := by
      have := List.of_mem_filter he
      simpa using this
    have h2 := h e h1
    simp only [List.mem_cons] at h2
    exact h2.resolve_left h3

end RegistryLemmas

section StatsLemmas

theorem memFold_eq (mem : Nat → Option Nat) :
    ∀ (reg : Registry) (acc : ℚ),
      reg.foldl (fun acc e =>
        match e.2.pid with
        | some pid =>
          match mem pid with
          | some rss => acc + (rss : ℚ) / (1024 * 1024)
          | none => acc
        | none => acc) acc
      = acc + ((reg.filterMap (fun e => e.2.pid.bind mem)).map
          (fun rss : Nat => (rss : ℚ) / (1024 * 1024))).sum := by
  intro reg
  induction reg with
  | nil => intro acc; simp
  | cons e rest ih =>
    intro acc
    simp only [List.foldl_cons, List.filterMap_cons]
    cases hp : e.2.pid with
    | none =>
      simp only [hp, Option.none_bind]
      exact ih acc
    | some pid =>
      cases hm : mem pid with
      | none =>
        simp only [hp, hm, Option.some_bind]
        exact ih acc
      | some rss =>
        simp only [hp, hm, Option.some_bind, List.map_cons, List.sum_cons]
        rw [ih (acc + (rss : ℚ) / (1024 * 1024))]
        ring

end StatsLemmas

section StartLemmas

theorem start_profile_ok (reg : Registry) (rng : List Nat) (env : StartEnv)
    (p : Profile) (cf sp : List String) (r : StartResult)
    (h : (start_profile reg rng env p cf sp).result = .ok r) :
    (start_profile reg rng env p cf sp).registry
      = (p.id, ⟨env.pid, _get_debug_port env.driver,
          _get_websocket_url env.http (_get_debug_port env.driver), env.now,
          _apply_fingerprint_overrides env.fp rng p⟩) :: reg ∧
    r = ⟨_get_debug_port env.driver,
          _get_websocket_url env.http (_get_debug_port env.driver), env.pid⟩ ∧
    (start_profile reg rng env p cf sp).rng
      = (_apply_fingerprint_overrides env.fp rng p).rng := by
  revert h
  unfold start_profile
  repeat' split
  all_goals intro h
  any_goals exact Except.noConfusion h
  injection h with h
  subst h
  exact ⟨rfl, rfl, rfl⟩

theorem start_profile_error_frame (reg : Registry) (rng : List Nat) (env : StartEnv)
    (p : Profile) (cf sp : List String) (e : SMError)
    (h : (start_profile reg rng env p cf sp).result = .error e) :
    (start_profile reg rng env p cf sp).registry = reg := by
  revert h
  unfold start_profile
  repeat' split
  all_goals intro h
  any_goals exact rfl
  exact Except.noConfusion h

end StartLemmas

section FpLemmas

theorem scriptCmds_append (a b : List CdpCommand) :
    scriptCmds (a ++ b) = scriptCmds a ++ scriptCmds b :=
  List.filterMap_append a b _

theorem uaStep_ok_no_scripts (env : FpEnv) (p : Profile) (c : List CdpCommand)
    (h : uaStep env p = .ok c) : scriptCmds c = [] := by
  revert h
  unfold uaStep
  repeat' split
  all_goals intro h
  all_goals first
    | exact Except.noConfusion h
    | (injection h with h; subst h; rfl)

theorem geoStep_scripts (env : FpEnv) (p : Profile) (cmds : List CdpCommand) :
    scriptCmds (geoStep env p cmds) = scriptCmds cmds := by
  unfold geoStep
  repeat' split
  all_goals simp [scriptCmds_append, scriptCmds]

theorem tzGeoStep_scripts (env : FpEnv) (p : Profile) (cmds : List CdpCommand) :
    scriptCmds (tzGeoStep env p cmds) = scriptCmds cmds := by
  unfold tzGeoStep
  repeat' split
  all_goals first
    | rfl
    | (rw [geoStep_scripts] <;> simp [scriptCmds_append, scriptCmds])

theorem fp_run_shape (env : FpEnv) (rng : List Nat) (p : Profile)
    (c : List CdpCommand)
    (hact : env.activateRaises = false) (huas : uaStep env p = .ok c)
    (hadd : env.addScriptRaises = false) :
    _apply_fingerprint_overrides env rng p
      = ⟨tzGeoStep env p (c ++ [.addScriptToEvaluateOnNewDocument
            (buildScript p (randint 1 1000 rng.headI))]),
         some (buildScript p (randint 1 1000 rng.headI)), rng.tail⟩ := by
  unfold _apply_fingerprint_overrides
  rw [hact, huas, hadd]
  simp

theorem fp_run_uaStep_error (env : FpEnv) (rng : List Nat) (p : Profile)
    (c : List CdpCommand)
    (hact : env.activateRaises = false) (huas : uaStep env p = .error c) :
    _apply_fingerprint_overrides env rng p = ⟨c, none, rng⟩ := by
  unfold _apply_fingerprint_overrides
  rw [hact, huas]
  simp

theorem fp_run_addScript_raise (env : FpEnv) (rng : List Nat) (p : Profile)
    (c : List CdpCommand)
    (hact : env.activateRaises = false) (huas : uaStep env p = .ok c)
    (hadd : env.addScriptRaises = true) :
    _apply_fingerprint_overrides env rng p = ⟨c, none, rng.tail⟩ := by
  unfold _apply_fingerprint_overrides
  rw [hact, huas, hadd]
  simp

theorem fp_script_some (env : FpEnv) (rng : List Nat) (p : Profile)
    (s : InjectionScript)
    (h : (_apply_fingerprint_overrides env rng p).script = some s) :
    s.noise_seed = randint 1 1000 rng.headI ∧
    (_apply_fingerprint_overrides env rng p).rng = rng.tail ∧
    installedScripts (_apply_fingerprint_overrides env rng p) = [s] := by
  revert h
  unfold _apply_fingerprint_overrides
  split
  · intro h; exact Option.noConfusion h
  split
  · intro h; exact Option.noConfusion h
  split
  · intro h; exact Option.noConfusion h
  next cmds1 heq _ =>
    intro h
    injection h with h
    subst h
    refine ⟨rfl, rfl, ?_⟩
    show scriptCmds (tzGeoStep env p (cmds1 ++ [.addScriptToEvaluateOnNewDocument _])) = _
    rw [tzGeoStep_scripts, scriptCmds_append, uaStep_ok_no_scripts env p cmds1 heq]
    rfl

theorem uaStep_ok_no_geo (env : FpEnv) (p : Profile) (c : List CdpCommand)
    (h : uaStep env p = .ok c) : c.filter isGeoCommand = [] := by
  revert h
  unfold uaStep
  repeat' split
  all_goals intro h
  all_goals first
    | exact Except.noConfusion h
    | (injection h with h; subst h; rfl)

theorem uaStep_error_no_geo (env : FpEnv) (p : Profile) (c : List CdpCommand)
    (h : uaStep env p = .error c) : c.filter isGeoCommand = [] := by
  revert h
  unfold uaStep
  repeat' split
  all_goals intro h
  all_goals first
    | exact Except.noConfusion h
    | (injection h with h; subst h; rfl)

theorem uaStep_error_flag (env : FpEnv) (p : Profile) (c : List CdpCommand)
    (h : uaStep env p = .error c) : env.uaCmdRaises = true := by
  revert h
  unfold uaStep
  repeat' split
  all_goals intro h
  all_goals first
    | exact Except.noConfusion h
    | assumption

theorem geoStep_eq_append (env : FpEnv) (p : Profile) (cmds : List CdpCommand) :
    geoStep env p cmds = cmds ++ geoAdds env p := by
  unfold geoStep geoAdds
  repeat' split
  all_goals simp

theorem splitChar_singleton_of_not_mem (sep : Char) (cs : List Char)
    (h : sep ∉ cs) : splitChar sep cs = [cs] := by
  induction cs with
  | nil => rfl
  | cons c cs ih =>
    have hc : ¬ c = sep := fun hcontra => h (by simp [hcontra])
    have hs : sep ∉ cs := fun hm => h (List.mem_cons_of_mem c hm)
    unfold splitChar
    rw [if_neg hc, ih hs]

theorem mem_of_splitChar_pair (sep : Char) (cs : List Char)
    (a b : List Char) (t : List (List Char))
    (h : splitChar sep cs = a :: b :: t) : sep ∈ cs := by
  by_contra hmem
  rw [splitChar_singleton_of_not_mem sep cs hmem] at h
  injection h with h1 h2
  exact List.noConfusion h2

theorem containsChars_single_of_mem (sep : Char) (cs : List Char)
    (h : sep ∈ cs) : containsChars [sep] cs = true := by
  induction cs with
  | nil => exact absurd h (List.not_mem_nil sep)
  | cons c cs ih =>
    unfold containsChars
    rcases List.mem_cons.mp h with h | h
    · subst h
      simp [leadingChars]
    · rw [ih h, Bool.or_true]

theorem strContains_comma_of_parse (g : String) (x : PyFloat × PyFloat)
    (h : parseGeolocation g = some x) : strContains g "," = true := by
  unfold parseGeolocation pySplit at h
  have hgoal : strContains g "," = containsChars [','] g.data := rfl
  rw [hgoal]
  cases hsp : splitChar ',' g.data with
  | nil => rw [hsp] at h; exact Option.noConfusion h
  | cons a t =>
    cases t with
    | nil =>
      rw [hsp] at h
      simp only [List.map] at h
      exact Option.noConfusion h
    | cons b t2 =>
      cases t2 with
      | nil =>
        exact containsChars_single_of_mem ',' g.data
          (mem_of_splitChar_pair ',' g.data a b [] hsp)
      | cons c t3 =>
        rw [hsp] at h
        simp only [List.map] at h
        exact Option.noConfusion h

theorem geoAdds_of_parse_some (env : FpEnv) (p : Profile) (g : String)
    (lat lon : PyFloat) (hg : p.geolocation = some g)
    (hp : parseGeolocation g = some (lat, lon))
    (h1 : env.geoGrantRaises = false) (h2 : env.geoSetRaises = false) :
    geoAdds env p = [.grantPermissions ["geolocation"],
                     .setGeolocationOverride lat lon 100] := by
  unfold geoAdds
  rw [hg]
  simp [strContains_comma_of_parse g (lat, lon) hp, hp, h1, h2]

theorem geoAdds_of_parse_none (env : FpEnv) (p : Profile) (g : String)
    (hg : p.geolocation = some g) (hp : parseGeolocation g = none) :
    geoAdds env p = [] := by
  unfold geoAdds
  rw [hg]
  simp [hp]

theorem tzGeoStep_filter_no_tz_raise (env : FpEnv) (p : Profile)
    (cmds : List CdpCommand) (h : env.tzCmdRaises = false) :
    (tzGeoStep env p cmds).filter isGeoCommand
      = cmds.filter isGeoCommand ++ (geoAdds env p).filter isGeoCommand := by
  unfold tzGeoStep
  split
  · rw [h]
    simp only [Bool.false_eq_true, if_false, geoStep_eq_append, List.filter_append]
    simp [isGeoCommand]
  · rw [geoStep_eq_append, List.filter_append]

theorem tzGeoStep_filter_geoAdds_nil (env : FpEnv) (p : Profile)
    (cmds : List CdpCommand) (h : geoAdds env p = []) :
    (tzGeoStep env p cmds).filter isGeoCommand = cmds.filter isGeoCommand := by
  unfold tzGeoStep
  repeat' split
  · rfl
  · rw [geoStep_eq_append, h, List.append_nil, List.filter_append]
    simp [isGeoCommand]
  · rw [geoStep_eq_append, h, List.append_nil]

theorem geoAdds_filter_self (env : FpEnv) (p : Profile) :
    (geoAdds env p).filter isGeoCommand = geoAdds env p := by
  unfold geoAdds
  repeat' split
  all_goals rfl

theorem canvasNoiseLoop_even (seed : Nat) (hs : seed % 2 = 0) :
    ∀ (i : Nat) (data : List Nat), (∀ b ∈ data, b < 256) →
      canvasNoiseLoop seed i data = data := by
  intro i data
  induction data generalizing i with
  | nil => intro _; rfl
  | cons b rest ih =>
    intro hb
    have hb0 : b < 256 := hb b (by simp)
    have hrest : ∀ x ∈ rest, x < 256 := fun x hx => hb x (by simp [hx])
    unfold canvasNoiseLoop
    rw [ih (i + 1) hrest]
    congr 1
    split
    · rw [hs, Nat.add_zero, Nat.mod_eq_of_lt hb0]
    · rfl

end FpLemmas

section MoreStartLemmas

theorem lookup_cons_self (i : String) (v : Handle) (t : Registry) :
    List.lookup i ((i, v) :: t) = some v := by
  simp [List.lookup]

theorem start_profile_success (reg : Registry) (rng : List Nat) (env : StartEnv)
    (p : Profile) (cf sp : List String) (opts : List String)
    (h0 : List.lookup p.id reg = none)
    (h1 : env.makedirsRaises = false)
    (h2 : _build_chrome_options p cf = .ok opts)
    (h3 : env.launchRaises = false)
    (h4 : env.blankNavRaises = false)
    (h5 : pageNavFails env sp = false) :
    (start_profile reg rng env p cf sp).result
      = .ok ⟨_get_debug_port env.driver,
             _get_websocket_url env.http (_get_debug_port env.driver), env.pid⟩ := by
  unfold start_profile
  rw [h0, h2]
  simp [h1, h3, h4, h5]

end MoreStartLemmas

/-- C3: for every profile id present in the registry, stop_profile
returns normally (the graceful path, the forced-kill fallback and their
exceptions are all absorbed) and afterwards the id is absent from the
registry, for every combination of raise behaviors in the environment. -/
theorem stop_always_deregisters (reg : Registry) (env : StopEnv) (i : String)
    (h : is_running reg i = true) :
    (stop_profile reg env i).result = .ok () ∧
    List.lookup i (stop_profile reg env i).registry = none ∧
    is_running (stop_profile reg env i).registry i = false := by
  have h' : (List.lookup i reg).isSome = true := h
  obtain ⟨hd, hl⟩ := Option.isSome_iff_exists.mp h'
  refine ⟨stop_profile_present reg env i hd hl, ?_, ?_⟩
  · rw [stop_profile_registry]
    exact lookup_removeProfile reg i
  · show (List.lookup i (stop_profile reg env i).registry).isSome = false
    rw [stop_profile_registry, lookup_removeProfile]
    rfl

/-- Witness for C3 at a concrete one-entry registry, with both the
graceful exit and the forced kill raising. -/
theorem stop_always_deregisters_witness :
    is_running [("p1", sampleHandle)] "p1" = true ∧
    ((stop_profile [("p1", sampleHandle)] ⟨true, true⟩ "p1").result = .ok () ∧
     List.lookup "p1" (stop_profile [("p1", sampleHandle)] ⟨true, true⟩ "p1").registry = none ∧
     is_running (stop_profile [("p1", sampleHandle)] ⟨true, true⟩ "p1").registry "p1" = false) :=
  ⟨rfl, stop_always_deregisters [("p1", sampleHandle)] ⟨true, true⟩ "p1" rfl⟩

/-- C6: get_stats never raises (it is a total function of the registry
and the memory oracle); the snapshot counts all N registered sessions,
lists exactly their profile ids, and its aggregate memory is the rounded
sum over only the successful psutil reads — entries whose read fails (or
which have no recorded pid) contribute nothing. -/
theorem get_stats_snapshot_totals (reg : Registry) (mem : Nat → Option Nat) :
    (get_stats reg mem).running_count = reg.length ∧
    (get_stats reg mem).profiles = reg.map Prod.fst ∧
    (get_stats reg mem).total_memory_mb
      = round2 (((reg.filterMap (fun e => e.2.pid.bind mem)).map
          (fun rss : Nat => (rss : ℚ) / (1024 * 1024))).sum) := by
  refine ⟨rfl, rfl, ?_⟩
  show round2 _ = _
  rw [memFold_eq mem reg 0, zero_add]

/-- C7: close_all snapshots the profile ids, stops each (whatever each
stop's raise behavior), and always leaves the registry empty. -/
theorem close_all_empties_registry (reg : Registry) (envs : String → StopEnv) :
    close_all reg envs = [] := by
  unfold close_all
  exact stopFold_empty envs (reg.map Prod.fst) reg
    (fun e he => List.mem_map_of_mem Prod.fst he)

/-- C2: start on a profile id already in the registry raises the
already-running exception and leaves the registry untouched, whatever the
environment; and of two sequential start calls for the same id, when the
first succeeds, the second (under any environment and entropy) fails with
the already-running exception. -/
theorem start_second_call_alreadyRunning (reg : Registry) (rng : List Nat)
    (env : StartEnv) (p : Profile) (cf sp : List String)
    (h : is_running reg p.id = true) :
    (start_profile reg rng env p cf sp).result = .error (.alreadyRunning p.name) ∧
    (start_profile reg rng env p cf sp).registry = reg ∧
    (∀ (reg₀ : Registry) (rng₀ rng₁ : List Nat) (env₀ env₁ : StartEnv)
        (r : StartResult),
      (start_profile reg₀ rng₀ env₀ p cf sp).result = .ok r →
      (start_profile (start_profile reg₀ rng₀ env₀ p cf sp).registry
          rng₁ env₁ p cf sp).result = .error (.alreadyRunning p.name)) := by
  have h' : (List.lookup p.id reg).isSome = true := h
  refine ⟨?_, ?_, ?_⟩
  · unfold start_profile
    rw [h']
    rfl
  · unfold start_profile
    rw [h']
    rfl
  · intro reg₀ rng₀ rng₁ env₀ env₁ r hok
    obtain ⟨hreg, -, -⟩ := start_profile_ok reg₀ rng₀ env₀ p cf sp r hok
    rw [hreg]
    unfold start_profile
    rw [lookup_cons_self]
    rfl

/-- Witness for C2: a one-entry registry rejects a second start, and a
successful start from the empty registry makes the next start fail. -/
theorem start_second_call_alreadyRunning_witness :
    ((start_profile [("p1", sampleHandle)] [] okStartEnv sampleProfile [] []).result
        = .error (.alreadyRunning "Profile One") ∧
     (start_profile [("p1", sampleHandle)] [] okStartEnv sampleProfile [] []).registry
        = [("p1", sampleHandle)] ∧
     (∀ (reg₀ : Registry) (rng₀ rng₁ : List Nat) (env₀ env₁ : StartEnv)
         (r : StartResult),
       (start_profile reg₀ rng₀ env₀ sampleProfile [] []).result = .ok r →
       (start_profile (start_profile reg₀ rng₀ env₀ sampleProfile [] []).registry
           rng₁ env₁ sampleProfile [] []).result
         = .error (.alreadyRunning "Profile One"))) ∧
    (start_profile [] [] okStartEnv sampleProfile [] []).result
      = .ok ⟨9515, "ws://real", some 777⟩ :=
  ⟨start_second_call_alreadyRunning [("p1", sampleHandle)] [] okStartEnv
      sampleProfile [] [] rfl,
   rfl⟩

/-- C1 counterexample: with the blank-page navigation (a step after the
process launch) raising, the failed start surfaces the error and creates
no registry entry, but the launched OS process is not torn down — the
except handler only logs and re-raises, so the claimed teardown does not
happen. -/
theorem start_postLaunchFailure_leaks_process_cex :
    (start_profile [] [] blankNavFailEnv sampleProfile [] []).result
      = .error .navigationError ∧
    (start_profile [] [] blankNavFailEnv sampleProfile [] []).registry = [] ∧
    (start_profile [] [] blankNavFailEnv sampleProfile [] []).processLaunched = true ∧
    (start_profile [] [] blankNavFailEnv sampleProfile [] []).processKilled = false :=
  ⟨rfl, rfl, rfl, rfl⟩

/-- C1 (amended): when a step after process launch and before registry
insertion raises (the blank-page navigation or a start-page operation;
endpoint resolution cannot raise), no registry entry is created for the
profile id and the failure is surfaced to the caller, but the partially
created OS process is NOT torn down — it leaks. -/
theorem start_postLaunchFailure_no_entry_no_teardown
    (reg : Registry) (rng : List Nat) (env : StartEnv) (p : Profile)
    (cf sp : List String) (opts : List String)
    (h0 : List.lookup p.id reg = none)
    (h1 : env.makedirsRaises = false)
    (h2 : _build_chrome_options p cf = .ok opts)
    (h3 : env.launchRaises = false)
    (h4 : env.blankNavRaises = true ∨ pageNavFails env sp = true) :
    (start_profile reg rng env p cf sp).result = .error .navigationError ∧
    (start_profile reg rng env p cf sp).registry = reg ∧
    List.lookup p.id (start_profile reg rng env p cf sp).registry = none ∧
    (start_profile reg rng env p cf sp).processLaunched = true ∧
    (start_profile reg rng env p cf sp).processKilled = false := by
  have h0' : (List.lookup p.id reg).isSome = false := by rw [h0]; rfl
  rcases h4 with h4 | h4
  · unfold start_profile
    rw [h0', h2]
    simp [h1, h3, h4, h0]
  · by_cases hb : env.blankNavRaises = true
    · unfold start_profile
      rw [h0', h2]
      simp [h1, h3, hb, h0]
    · unfold start_profile
      rw [h0', h2]
      simp only [Bool.not_eq_true] at hb
      simp [h1, h3, hb, h4, h0]

/-- Witness for C1 (amended) at a concrete failing start-page index. -/
theorem start_postLaunchFailure_no_entry_no_teardown_witness :
    (start_profile [] [] { okStartEnv with pageFailIndex := some 0 }
        sampleProfile [] ["https://example.com"]).result = .error .navigationError ∧
    (start_profile [] [] { okStartEnv with pageFailIndex := some 0 }
        sampleProfile [] ["https://example.com"]).registry = [] ∧
    List.lookup "p1" (start_profile [] [] { okStartEnv with pageFailIndex := some 0 }
        sampleProfile [] ["https://example.com"]).registry = none ∧
    (start_profile [] [] { okStartEnv with pageFailIndex := some 0 }
        sampleProfile [] ["https://example.com"]).processLaunched = true ∧
    (start_profile [] [] { okStartEnv with pageFailIndex := some 0 }
        sampleProfile [] ["https://example.com"]).processKilled = false :=
  start_postLaunchFailure_no_entry_no_teardown [] []
    { okStartEnv with pageFailIndex := some 0 } sampleProfile []
    ["https://example.com"]
    ["--window-size=1920,1080", "--proxy-server=socks5://u:p@host:1080",
     "--disable-webrtc"]
    rfl rfl rfl rfl (Or.inr rfl)

/-- C4 counterexample: a fully successful start in which the metadata
query succeeded but its JSON carried no webSocketDebuggerUrl key returns
the empty string as the endpoint address — the claim that every
successful start returns a non-empty endpoint fails. -/
theorem start_success_empty_endpoint_cex :
    (start_profile [] [] keylessHttpEnv sampleProfile [] []).result
      = .ok ⟨9515, "", some 777⟩ :=
  rfl

/-- C4 (amended): when the HTTP metadata query fails, the endpoint
returned by a successful start is the conventional address synthesized
from the resolved port and is non-empty; an endpoint taken from a
successful query is returned verbatim and may be empty when the key is
absent. -/
theorem websocket_fallback_nonempty (reg : Registry) (rng : List Nat)
    (env : StartEnv) (p : Profile) (cf sp : List String) (r : StartResult)
    (hok : (start_profile reg rng env p cf sp).result = .ok r)
    (hhttp : env.http = none) :
    r.websocket_link
      = "ws://127.0.0.1:" ++ toString (_get_debug_port env.driver)
          ++ "/devtools/browser" ∧
    r.websocket_link ≠ "" := by
  obtain ⟨-, hr, -⟩ := start_profile_ok reg rng env p cf sp r hok
  subst hr
  constructor
  · show _get_websocket_url env.http (_get_debug_port env.driver) = _
    rw [hhttp]
    rfl
  · show _get_websocket_url env.http (_get_debug_port env.driver) ≠ ""
    rw [hhttp]
    have hurl : _get_websocket_url none (_get_debug_port env.driver)
        = "ws://127.0.0.1:" ++ toString (_get_debug_port env.driver)
            ++ "/devtools/browser" := rfl
    rw [hurl]
    intro hcontra
    have hlen := congrArg String.length hcontra
    rw [String.length_append, String.length_append] at hlen
    have hpre : ("ws://127.0.0.1:" : String).length = 15 := rfl
    have hsuf : ("/devtools/browser" : String).length = 17 := rfl
    have hnil : ("" : String).length = 0 := rfl
    omega

/-- Witness for C4 (amended): start with a failing metadata query. -/
theorem websocket_fallback_nonempty_witness :
    (start_profile [] [] fallbackHttpEnv sampleProfile [] []).result
      = .ok ⟨9515, "ws://127.0.0.1:9515/devtools/browser", some 777⟩ ∧
    ("ws://127.0.0.1:9515/devtools/browser"
        = "ws://127.0.0.1:" ++ toString (_get_debug_port fallbackHttpEnv.driver)
            ++ "/devtools/browser" ∧
     ("ws://127.0.0.1:9515/devtools/browser" : String) ≠ "") :=
  ⟨rfl,
   websocket_fallback_nonempty [] [] fallbackHttpEnv sampleProfile [] []
     ⟨9515, "ws://127.0.0.1:9515/devtools/browser", some 777⟩ rfl rfl⟩

/-- C5 counterexample: a resolution that does not split into exactly two
parts makes _build_chrome_options raise the unpack ValueError instead of
omitting the window-size flag and proceeding. -/
theorem build_options_malformed_resolution_cex :
    _build_chrome_options badResProfile [] = .error .valueError :=
  rfl

/-- C5 (amended): a well-formed resolution (splitting into exactly a
width and a height) yields the window-size flag carrying that width and
height, but a malformed resolution raises a ValueError from the unpack —
the flag is not silently omitted and the start aborts. -/
theorem build_options_resolution_behavior (p : Profile) (flags : List String)
    (res : String) (hres : p.screen_resolution = some res) :
    (∀ w h, pySplit res 'x' = [w, h] →
      ∃ rest, _build_chrome_options p flags
        = .ok (("--window-size=" ++ w ++ "," ++ h) :: rest)) ∧
    ((pySplit res 'x').length ≠ 2 →
      _build_chrome_options p flags = .error .valueError) := by
  constructor
  · intro w h hsplit
    unfold _build_chrome_options
    simp only [hres]
    rw [hsplit]
    exact ⟨_, rfl⟩
  · intro hlen
    unfold _build_chrome_options
    simp only [hres]
    cases hs : pySplit res 'x' with
    | nil => rfl
    | cons a t =>
      cases t with
      | nil => rfl
      | cons b t2 =>
        cases t2 with
        | nil => exact absurd (by rw [hs]; rfl) hlen
        | cons c t3 => rfl

/-- Witness for C5 (amended) at the sample well-formed and malformed
resolutions. -/
theorem build_options_resolution_behavior_witness :
    (∃ rest, _build_chrome_options sampleProfile []
        = .ok (("--window-size=" ++ "1920" ++ "," ++ "1080") :: rest)) ∧
    _build_chrome_options badResProfile [] = .error .valueError :=
  ⟨(build_options_resolution_behavior sampleProfile [] "1920x1080" rfl).1
      "1920" "1080" rfl,
   (build_options_resolution_behavior badResProfile [] "1920" rfl).2 (by decide)⟩

/-- C8: the session noise seed is drawn once per start from the entropy
stream head via randint over 1..1000 and is embedded in the single script
installed for the session, whose canvas and audio patches therefore read
the same constant on every navigation; the registry handle carries that
session state; the stream advances by exactly the one draw, so a second
sequential start (of the same profile id or any other) draws its seed
independently from the next stream element. -/
theorem noise_seed_once_per_session (reg reg₂ : Registry) (rng : List Nat)
    (env₁ env₂ : StartEnv) (p : Profile) (cf sp : List String)
    (r₁ r₂ : StartResult) (s₁ s₂ : InjectionScript)
    (h₁ok : (start_profile reg rng env₁ p cf sp).result = .ok r₁)
    (h₁s : (_apply_fingerprint_overrides env₁.fp rng p).script = some s₁)
    (_h₂ok : (start_profile reg₂ (start_profile reg rng env₁ p cf sp).rng
        env₂ p cf sp).result = .ok r₂)
    (h₂s : (_apply_fingerprint_overrides env₂.fp
        (start_profile reg rng env₁ p cf sp).rng p).script = some s₂) :
    s₁.noise_seed = randint 1 1000 rng.headI ∧
    1 ≤ s₁.noise_seed ∧ s₁.noise_seed ≤ 1000 ∧
    installedScripts (_apply_fingerprint_overrides env₁.fp rng p) = [s₁] ∧
    (List.lookup p.id (start_profile reg rng env₁ p cf sp).registry).map
        (fun hd => hd.browser.script) = some (some s₁) ∧
    (start_profile reg rng env₁ p cf sp).rng = rng.tail ∧
    s₂.noise_seed = randint 1 1000 rng.tail.headI ∧
    1 ≤ s₂.noise_seed ∧ s₂.noise_seed ≤ 1000 := by
  obtain ⟨hseed₁, hrng₁, hinst₁⟩ := fp_script_some env₁.fp rng p s₁ h₁s
  obtain ⟨hreg, -, hrngout⟩ := start_profile_ok reg rng env₁ p cf sp r₁ h₁ok
  have hout : (start_profile reg rng env₁ p cf sp).rng = rng.tail := by
    rw [hrngout, hrng₁]
  obtain ⟨hseed₂, -, -⟩ := fp_script_some env₂.fp _ p s₂ h₂s
  rw [hout] at hseed₂
  refine ⟨hseed₁, ?_, ?_, hinst₁, ?_, hout, hseed₂, ?_, ?_⟩
  · rw [hseed₁]; exact randint_lower 1 1000 _
  · rw [hseed₁]; exact randint_upper 1 1000 _ (by norm_num)
  · rw [hreg, lookup_cons_self]
    show some ((_apply_fingerprint_overrides env₁.fp rng p).script)
      = some (some s₁)
    rw [h₁s]
  · rw [hseed₂]; exact randint_lower 1 1000 _
  · rw [hseed₂]; exact randint_upper 1 1000 _ (by norm_num)

/-- Witness for C8: two sequential starts with entropy stream [5, 800]
draw the distinct seeds 6 and 801. -/
theorem noise_seed_once_per_session_witness :
    ((sampleScript 6).noise_seed = randint 1 1000 ([5, 800] : List Nat).headI ∧
     1 ≤ (sampleScript 6).noise_seed ∧ (sampleScript 6).noise_seed ≤ 1000 ∧
     installedScripts (_apply_fingerprint_overrides okStartEnv.fp [5, 800] sampleProfile)
        = [sampleScript 6] ∧
     (List.lookup sampleProfile.id
        (start_profile [] [5, 800] okStartEnv sampleProfile [] []).registry).map
        (fun hd => hd.browser.script) = some (some (sampleScript 6)) ∧
     (start_profile [] [5, 800] okStartEnv sampleProfile [] []).rng
        = ([5, 800] : List Nat).tail ∧
     (sampleScript 801).noise_seed = randint 1 1000 ([5, 800] : List Nat).tail.headI ∧
     1 ≤ (sampleScript 801).noise_seed ∧ (sampleScript 801).noise_seed ≤ 1000) ∧
    (sampleScript 6).noise_seed ≠ (sampleScript 801).noise_seed :=
  ⟨noise_seed_once_per_session [] [] [5, 800] okStartEnv okStartEnv sampleProfile
      [] [] ⟨9515, "ws://real", some 777⟩ ⟨9515, "ws://real", some 777⟩
      (sampleScript 6) (sampleScript 801) rfl rfl rfl rfl,
   by decide⟩

/-- C9: if the configured geolocation string parses as two Python floats
separated by a comma (float() semantics: surrounding whitespace, signs,
exponents, underscores, inf and nan included) then an injection run that
reaches the geolocation step without raising grants the geolocation
permission and overrides the coordinates with accuracy 100; if the
string does not so parse, no geolocation command is issued under any
environment, and a start under an otherwise sane environment still
succeeds. -/
theorem geolocation_override_parse (env : FpEnv) (rng : List Nat)
    (p : Profile) (g : String) (hg : p.geolocation = some g) :
    (∀ lat lon, parseGeolocation g = some (lat, lon) →
      env.activateRaises = false → env.uaCmdRaises = false →
      env.addScriptRaises = false → env.tzCmdRaises = false →
      env.geoGrantRaises = false → env.geoSetRaises = false →
      (_apply_fingerprint_overrides env rng p).cmds.filter isGeoCommand
        = [.grantPermissions ["geolocation"],
           .setGeolocationOverride lat lon 100]) ∧
    (parseGeolocation g = none →
      (_apply_fingerprint_overrides env rng p).cmds.filter isGeoCommand = []) ∧
    (∀ (reg : Registry) (rng₀ : List Nat) (senv : StartEnv)
        (cf sp : List String) (opts : List String),
      List.lookup p.id reg = none →
      senv.makedirsRaises = false →
      _build_chrome_options p cf = .ok opts →
      senv.launchRaises = false → senv.blankNavRaises = false →
      pageNavFails senv sp = false →
      ∃ r, (start_profile reg rng₀ senv p cf sp).result = .ok r) := by
  refine ⟨?_, ?_, ?_⟩
  · intro lat lon hp hact hua hadd htz hgr hset
    cases huas : uaStep env p with
    | error c =>
      rw [uaStep_error_flag env p c huas] at hua
      exact absurd hua (by simp)
    | ok c =>
      rw [fp_run_shape env rng p c hact huas hadd]
      show (tzGeoStep env p _).filter isGeoCommand = _
      rw [tzGeoStep_filter_no_tz_raise env p _ htz, List.filter_append,
          uaStep_ok_no_geo env p c huas,
          geoAdds_of_parse_some env p g lat lon hg hp hgr hset]
      simp [isGeoCommand]
  · intro hp
    by_cases hact : env.activateRaises = true
    · have hrun : _apply_fingerprint_overrides env rng p = ⟨[], none, rng⟩ := by
        unfold _apply_fingerprint_overrides
        rw [hact]
        simp
      rw [hrun]
      rfl
    · simp only [Bool.not_eq_true] at hact
      cases huas : uaStep env p with
      | error c =>
        rw [fp_run_uaStep_error env rng p c hact huas]
        exact uaStep_error_no_geo env p c huas
      | ok c =>
        by_cases hadd : env.addScriptRaises = true
        · rw [fp_run_addScript_raise env rng p c hact huas hadd]
          exact uaStep_ok_no_geo env p c huas
        · simp only [Bool.not_eq_true] at hadd
          rw [fp_run_shape env rng p c hact huas hadd]
          show (tzGeoStep env p _).filter isGeoCommand = []
          rw [tzGeoStep_filter_geoAdds_nil env p _
                (geoAdds_of_parse_none env p g hg hp),
              List.filter_append, uaStep_ok_no_geo env p c huas]
          simp [isGeoCommand]
  · intro reg rng₀ senv cf sp opts h0 h1 h2 h3 h4 h5
    exact ⟨_, start_profile_success reg rng₀ senv p cf sp opts h0 h1 h2 h3 h4 h5⟩

/-- Witness for C9: the sample geolocation grants and overrides with the
parsed coordinates; the malformed one issues no geolocation command and
its start still succeeds. -/
theorem geolocation_override_parse_witness :
    (_apply_fingerprint_overrides okFpEnv [7] sampleProfile).cmds.filter isGeoCommand
      = [.grantPermissions ["geolocation"],
         .setGeolocationOverride (.finite (50891 / 1250)) (.finite (-37003 / 500)) 100] ∧
    (_apply_fingerprint_overrides okFpEnv [7] spacedGeoProfile).cmds.filter isGeoCommand
      = [.grantPermissions ["geolocation"],
         .setGeolocationOverride (.finite (50891 / 1250)) (.finite (-37003 / 500)) 100] ∧
    (_apply_fingerprint_overrides okFpEnv [7] expGeoProfile).cmds.filter isGeoCommand
      = [.grantPermissions ["geolocation"],
         .setGeolocationOverride (.finite 40) (.finite 2) 100] ∧
    (_apply_fingerprint_overrides okFpEnv [7] badGeoProfile).cmds.filter isGeoCommand
      = [] ∧
    (∃ r, (start_profile [] [7] okStartEnv badGeoProfile [] []).result = .ok r) := by
  have h1 : parseGeolocation "40.7128,-74.0060"
      = some (.finite ((digitsVal ['4', '0'] : ℚ)
                + (digitsVal ['7', '1', '2', '8'] : ℚ) / (10 : ℚ) ^ (4 : Nat)),
              .finite (-((digitsVal ['7', '4'] : ℚ)
                + (digitsVal ['0', '0', '6', '0'] : ℚ) / (10 : ℚ) ^ (4 : Nat)))) := rfl
  have e1 : digitsVal ['4', '0'] = 40 := rfl
  have e2 : digitsVal ['7', '1', '2', '8'] = 7128 := rfl
  have e3 : digitsVal ['7', '4'] = 74 := rfl
  have e4 : digitsVal ['0', '0', '6', '0'] = 60 := rfl
  have hp : parseGeolocation "40.7128,-74.0060"
      = some (.finite (50891 / 1250), .finite (-37003 / 500)) := by
    rw [h1, e1, e2, e3, e4]
    simp only [Option.some.injEq, Prod.mk.injEq, PyFloat.finite.injEq]
    norm_num
  have hps : parseGeolocation "40.7128, -74.0060"
      = some (.finite (50891 / 1250), .finite (-37003 / 500)) := by
    have hsame : parseGeolocation "40.7128, -74.0060"
        = parseGeolocation "40.7128,-74.0060" := rfl
    rw [hsame, hp]
  have h1e : parseGeolocation "4e1,2"
      = some (.finite ((digitsVal ['4'] : ℚ) * (10 : ℚ) ^ ((digitsVal ['1'] : ℤ))),
              .finite (digitsVal ['2'] : ℚ)) := rfl
  have e5 : digitsVal ['4'] = 4 := rfl
  have e6 : digitsVal ['1'] = 1 := rfl
  have e7 : digitsVal ['2'] = 2 := rfl
  have hpe : parseGeolocation "4e1,2" = some (.finite 40, .finite 2) := by
    rw [h1e, e5, e6, e7]
    simp only [Option.some.injEq, Prod.mk.injEq, PyFloat.finite.injEq]
    norm_num
  have hpn : parseGeolocation "not-a-pair" = none := rfl
  exact ⟨(geolocation_override_parse okFpEnv [7] sampleProfile
        "40.7128,-74.0060" rfl).1
      (.finite (50891 / 1250)) (.finite (-37003 / 500)) hp rfl rfl rfl rfl rfl rfl,
    (geolocation_override_parse okFpEnv [7] spacedGeoProfile
        "40.7128, -74.0060" rfl).1
      (.finite (50891 / 1250)) (.finite (-37003 / 500)) hps rfl rfl rfl rfl rfl rfl,
    (geolocation_override_parse okFpEnv [7] expGeoProfile "4e1,2" rfl).1
      (.finite 40) (.finite 2) hpe rfl rfl rfl rfl rfl rfl,
    (geolocation_override_parse okFpEnv [7] badGeoProfile "not-a-pair" rfl).2.1 hpn,
    (geolocation_override_parse okFpEnv [7] badGeoProfile "not-a-pair" rfl).2.2
      [] [7] okStartEnv [] []
      ["--window-size=1920,1080", "--proxy-server=socks5://u:p@host:1080",
       "--disable-webrtc"]
      rfl rfl rfl rfl rfl rfl⟩

/-- C10: with an even session seed the injected canvas patch is the
identity: each red-channel byte gains seed mod 2 = 0 and is reduced mod
256, so for genuine byte values (below 256) the returned image data
equals the original byte for byte — canvas noise mode perturbs nothing
for the even half of the seed range. -/
theorem canvas_noise_even_seed_identity (s : InjectionScript) (data : List Nat)
    (hseed : s.noise_seed % 2 = 0) (hbytes : ∀ b ∈ data, b < 256) :
    canvasGetImageData s data = data := by
  unfold canvasGetImageData
  split
  · exact canvasNoiseLoop_even s.noise_seed hseed 0 data hbytes
  · rfl

/-- Witness for C10 at seed 4 and a concrete pixel buffer with the
canvas-noise fragment enabled. -/
theorem canvas_noise_even_seed_identity_witness :
    ((sampleScript 4).noise_seed % 2 = 0 ∧
     ∀ b ∈ [10, 255, 0, 3, 250], b < 256) ∧
    canvasGetImageData (sampleScript 4) [10, 255, 0, 3, 250]
      = [10, 255, 0, 3, 250] :=
  ⟨⟨by decide, by decide⟩,
   canvas_noise_even_seed_identity (sampleScript 4) [10, 255, 0, 3, 250]
     (by decide) (by decide)⟩

end Celebium
